import Mathlib

/-!
Shallow embedding of the `mcp-feedback-enhanced` Tauri shim
(`src-tauri/src/lib.rs` and `src-tauri/src/main.rs`).

The Rust code is a thin desktop shell: a flat `AppState` record, four
UI-invoked commands (two getters, two stub setters that only log), a
global mutex-guarded `Option<AppHandle>` slot written once during setup,
a bootstrap that optionally navigates to a URL taken from the
`MCP_WEB_URL` environment variable, and a PyO3 bridge exposing
`context_factory`, `builder_factory` and `run_app`.

Side effects are made explicit: `println!` output is returned as a
`String` (or recorded as a trace event), the managed state is passed and
returned explicitly, the join outcome of the worker thread spawned by
`run_app` is an input (`workerPanics`), and the presence of the
environment variable / the main webview window / the success of URL
parsing are inputs to the setup function.
-/

/-- AppState from lib.rs lines 9-13 (duplicated in main.rs lines 11-15):
`#[derive(Default)] struct AppState { web_url: String, desktop_mode: bool }`. -/
structure AppState where
  web_url : String
  desktop_mode : Bool
deriving DecidableEq, Repr

/-- Rust `Default` for AppState: empty string and false. -/
def AppState.default : AppState := { web_url := "", desktop_mode := false }

namespace Lib

/-- get_web_url from lib.rs lines 50-53: `state.web_url.clone()`. -/
def get_web_url (state : AppState) : String :=
  state.web_url

/-- set_web_url from lib.rs lines 56-61: only prints a diagnostic, the
managed state is not mutated (the `_state` parameter is unused). Returns
the (unchanged) state together with the printed line. -/
def set_web_url (url : String) (state : AppState) : AppState × String :=
  (state, "設置 Web URL: " ++ url)

/-- is_desktop_mode from lib.rs lines 64-67: `state.desktop_mode`. -/
def is_desktop_mode (state : AppState) : Bool :=
  state.desktop_mode

/-- set_desktop_mode from lib.rs lines 70-73: only prints a diagnostic,
no mutation of the managed state. -/
def set_desktop_mode (enabled : Bool) (state : AppState) : AppState × String :=
  (state, "設置桌面模式: " ++ (if enabled then "true" else "false"))

end Lib

namespace MainBin

/-- get_web_url from main.rs lines 18-21, a verbatim duplicate of the
lib.rs command. -/
def get_web_url (state : AppState) : String :=
  state.web_url

/-- set_web_url from main.rs lines 24-27, a verbatim duplicate of the
lib.rs command (diagnostic print only, no mutation). -/
def set_web_url (url : String) (state : AppState) : AppState × String :=
  (state, "設置 Web URL: " ++ url)

/-- is_desktop_mode from main.rs lines 30-33, a verbatim duplicate of the
lib.rs command. -/
def is_desktop_mode (state : AppState) : Bool :=
  state.desktop_mode

/-- set_desktop_mode from main.rs lines 36-39, a verbatim duplicate of
the lib.rs command (diagnostic print only, no mutation). -/
def set_desktop_mode (enabled : Bool) (state : AppState) : AppState × String :=
  (state, "設置桌面模式: " ++ (if enabled then "true" else "false"))

end MainBin

/-- Process-wide state visible to the shim: the global mutex-guarded
`APP_STATE : Mutex<Option<AppHandle>>` slot (lib.rs line 6 / main.rs
line 8) and the managed `AppState` record. The handle type is abstract
(`α`). -/
structure ProcState (α : Type) where
  handleSlot : Option α
  appState : AppState

/-- Process state at startup: the static slot is initialised to `None`
and the managed state record to its defaults. -/
def ProcState.initial (α : Type) : ProcState α :=
  { handleSlot := none, appState := AppState.default }

/-- Setup closure of create_tauri_builder (lib.rs lines 25-40): takes the
slot lock, stores `Some(app.handle().clone())`, reads the managed state
without touching it, prints the init message. -/
def libSetup {α : Type} (handle : α) (p : ProcState α) : ProcState α × String :=
  ({ p with handleSlot := some handle }, "Tauri 應用程式已初始化")

/-- One invocation of a command-surface operation, as dispatched by the
`invoke_handler` registration (lib.rs lines 41-46 / main.rs lines 71-76). -/
inductive Command where
  | getWebUrl : Command
  | setWebUrl (url : String) : Command
  | isDesktopMode : Command
  | setDesktopMode (enabled : Bool) : Command

/-- Effect of one command on the process state: getters read only, and
the stub setters leave the managed record as they received it. No
command touches the global handle slot. -/
def applyCommand {α : Type} (c : Command) (p : ProcState α) : ProcState α :=
  match c with
  | .getWebUrl => p
  | .setWebUrl url => { p with appState := (Lib.set_web_url url p.appState).1 }
  | .isDesktopMode => p
  | .setDesktopMode b => { p with appState := (Lib.set_desktop_mode b p.appState).1 }

/-- Fate of the setup closure in main.rs: it either returns `Ok(())` or
the `web_url.parse().unwrap()` on line 64 panics. -/
inductive SetupOutcome where
  | ok : SetupOutcome
  | panicked : SetupOutcome
deriving DecidableEq, Repr

/-- Observable result of the main.rs setup closure: the value stored in
the global slot, the URL the main window was told to navigate to (if
any), and whether the closure completed or panicked. -/
structure MainSetupResult (α : Type) where
  slot : Option α
  navigated : Option String
  outcome : SetupOutcome

/-- Setup closure of main (main.rs lines 51-70): stores the handle in the
global slot, then, if the `MCP_WEB_URL` environment variable is set
(`env`) and the `"main"` webview window is found (`mainWindow`),
navigates to the parsed URL — `web_url.parse().unwrap()` panics when the
value does not parse (`parseOk`). The `navigate` result itself is
discarded (`let _ =`). -/
def mainSetup {α : Type} (handle : α) (env : Option String) (mainWindow : Bool)
    (parseOk : String → Bool) : MainSetupResult α :=
  match env with
  | none => { slot := some handle, navigated := none, outcome := .ok }
  | some url =>
    if mainWindow then
      if parseOk url then
        { slot := some handle, navigated := some url, outcome := .ok }
      else
        { slot := some handle, navigated := none, outcome := .panicked }
    else
      { slot := some handle, navigated := none, outcome := .ok }

/-- context_factory from lib.rs lines 96-101: `Ok("tauri_context")`.
`PyResult<String>` is embedded as `Except String String`. -/
def context_factory : Except String String :=
  Except.ok "tauri_context"

/-- builder_factory from lib.rs lines 104-109: `Ok("tauri_builder")`. -/
def builder_factory : Except String String :=
  Except.ok "tauri_builder"

/-- Observable step performed by run_app (lib.rs lines 112-131). -/
inductive RunEvent where
  | log (msg : String) : RunEvent
  | createBuilder : RunEvent
  | generateContext : RunEvent
  | spawnWorker : RunEvent
  | runEventLoop : RunEvent
  | joinWorker : RunEvent
deriving DecidableEq, Repr

/-- Body of the worker thread spawned by run_app (lib.rs lines 122-127):
it only prints a line and returns 0 — `builder.run(context)` is
commented out, so the event loop is never started. -/
def workerBody : List RunEvent × Int :=
  ([RunEvent.log "Tauri 應用程式線程已啟動"], 0)

/-- run_app from lib.rs lines 112-131: prints the startup line, builds a
fresh builder and context (both unused), spawns one worker thread and
joins it. `workerPanics` is the environment's choice of whether the
worker thread panics; a panicked join (`Err(_)`) is mapped to `Ok(1)`,
a normal join to `Ok(code)` with the worker's code. Returns the full
event trace together with the `PyResult<i32>`. -/
def run_app (web_url : String) (workerPanics : Bool) : List RunEvent × Except String Int :=
  let startEvents : List RunEvent :=
    [RunEvent.log ("正在啟動 Tauri 應用程式，Web URL: " ++ web_url),
     RunEvent.createBuilder, RunEvent.generateContext, RunEvent.spawnWorker]
  let workerEvents : List RunEvent := if workerPanics then [] else workerBody.1
  let joinResult : Except Unit Int :=
    if workerPanics then Except.error () else Except.ok workerBody.2
  let events : List RunEvent := startEvents ++ workerEvents ++ [RunEvent.joinWorker]
  match joinResult with
  | Except.ok code => (events, Except.ok code)
  | Except.error _ => (events, Except.ok 1)

/-- Predicate picking out the thread-spawn events of a run_app trace. -/
def isSpawn : RunEvent → Bool
  | RunEvent.spawnWorker => true
  | _ => false

/-- Predicate picking out event-loop starts in a run_app trace. -/
def isRunLoop : RunEvent → Bool
  | RunEvent.runEventLoop => true
  | _ => false

/-- Helper: no command-surface operation writes the global handle slot. -/
lemma applyCommand_handleSlot {α : Type} (c : Command) (p : ProcState α) :
    (applyCommand c p).handleSlot = p.handleSlot := by
  cases c <;> rfl

/-- Helper: a whole sequence of command-surface operations leaves the
global handle slot where it was. -/
lemma foldl_commands_handleSlot {α : Type} (cmds : List Command) (p : ProcState α) :
    (cmds.foldl (fun q c => applyCommand c q) p).handleSlot = p.handleSlot := by
  induction cmds generalizing p with
  | nil => rfl
  | cons c cs ih => rw [List.foldl_cons, ih (applyCommand c p), applyCommand_handleSlot]

/-- C1: for every string and boolean, the stub setters return the state
record unchanged (they only produce a diagnostic line, no error), so a
getter after the setter reads exactly what it read before — on the
default record, still the defaults. -/
theorem setters_leave_state_unchanged (s : String) (b : Bool) (st : AppState) :
    (Lib.set_web_url s st).1 = st ∧
    (Lib.set_desktop_mode b st).1 = st ∧
    Lib.get_web_url (Lib.set_web_url s st).1 = Lib.get_web_url st ∧
    Lib.is_desktop_mode (Lib.set_desktop_mode b st).1 = Lib.is_desktop_mode st ∧
    Lib.get_web_url (Lib.set_web_url s AppState.default).1 = "" ∧
    Lib.is_desktop_mode (Lib.set_desktop_mode b AppState.default).1 = false :=
  ⟨rfl, rfl, rfl, rfl, rfl, rfl⟩

/-- C2: the getters return exactly the stored fields, have no effect on
the process state, and on the freshly constructed default record return
the empty string and false. -/
theorem getters_pure_and_defaults {α : Type} (st : AppState) (p : ProcState α) :
    Lib.get_web_url st = st.web_url ∧
    Lib.is_desktop_mode st = st.desktop_mode ∧
    applyCommand Command.getWebUrl p = p ∧
    applyCommand Command.isDesktopMode p = p ∧
    Lib.get_web_url AppState.default = "" ∧
    Lib.is_desktop_mode AppState.default = false :=
  ⟨rfl, rfl, rfl, rfl, rfl, rfl⟩

/-- C3: for every URL string, run_app returns Ok 0 exactly when the
worker completes normally and Ok 1 exactly when the worker panicked /
failed to join; these are the only two outcomes and no error is ever
propagated (the join failure is converted locally into the code 1). -/
theorem run_app_exit_codes (u : String) (p : Bool) :
    ((run_app u p).2 = Except.ok 0 ∨ (run_app u p).2 = Except.ok 1) ∧
    ((run_app u p).2 = Except.ok 0 ↔ p = false) ∧
    ((run_app u p).2 = Except.ok 1 ↔ p = true) ∧
    (∀ e : String, (run_app u p).2 ≠ Except.error e) := by
  cases p <;> simp [run_app, workerBody]

/-- C4: when the MCP_WEB_URL environment value is present, the main
window is found, and the value fails to parse, the main.rs setup closure
panics: no navigation is performed and no error value is returned, the
process aborts with no recovery. -/
theorem unparsable_url_panics {α : Type} (h : α) (u : String) (parseOk : String → Bool)
    (hp : parseOk u = false) :
    mainSetup h (some u) true parseOk =
      { slot := some h, navigated := none, outcome := SetupOutcome.panicked } := by
  simp [mainSetup, hp]

/-- Witness for C4 at the concrete input "not a url" with a parser that
rejects everything. -/
theorem unparsable_url_panics_witness :
    (fun _ : String => false) "not a url" = false ∧
    mainSetup () (some "not a url") true (fun _ => false) =
      { slot := some (), navigated := none, outcome := SetupOutcome.panicked } :=
  ⟨rfl, unparsable_url_panics () "not a url" (fun _ => false) rfl⟩

/-- C5: when the MCP_WEB_URL environment value is unset, the main.rs
setup stores the handle, performs no navigation, and completes without
error regardless of the window lookup or the parser. -/
theorem unset_env_no_navigation {α : Type} (h : α) (mainWindow : Bool)
    (parseOk : String → Bool) :
    mainSetup h none mainWindow parseOk =
      { slot := some h, navigated := none, outcome := SetupOutcome.ok } :=
  rfl

/-- C6: the global handle slot starts as None, the setup step (and only
it) writes it, transitioning it to Some handle, and no sequence of
command-surface operations afterwards changes it — each single command
leaves the slot exactly as it found it. -/
theorem handle_slot_written_once {α : Type} (h : α) (cmds : List Command)
    (c : Command) (p : ProcState α) :
    (ProcState.initial α).handleSlot = none ∧
    ((libSetup h (ProcState.initial α)).1).handleSlot = some h ∧
    (cmds.foldl (fun q d => applyCommand d q) (libSetup h (ProcState.initial α)).1).handleSlot
      = some h ∧
    (applyCommand c p).handleSlot = p.handleSlot := by
  refine ⟨rfl, ?_, ?_, applyCommand_handleSlot c p⟩
  · simp [libSetup]
  · rw [foldl_commands_handleSlot]
    simp [libSetup]

/-- C7: both factory entry points always succeed and return their fixed
placeholder strings. -/
theorem factories_constant :
    context_factory = Except.ok "tauri_context" ∧
    builder_factory = Except.ok "tauri_builder" :=
  ⟨rfl, rfl⟩

/-- C8: every run_app call spawns exactly one worker thread, joins it
synchronously (the join is the last event of the trace), never starts
the event loop, and the worker immediately returns the success code 0. -/
theorem run_app_single_worker_join (u : String) (p : Bool) :
    ((run_app u p).1.filter isSpawn).length = 1 ∧
    (run_app u p).1.getLast? = some RunEvent.joinWorker ∧
    ((run_app u p).1.filter isRunLoop).length = 0 ∧
    workerBody.2 = 0 := by
  cases p <;> exact ⟨rfl, rfl, rfl, rfl⟩

/-- C9: the integer result of run_app is independent of the URL
argument — the URL only appears in the diagnostic log. -/
theorem run_app_result_ignores_url (u1 u2 : String) (p : Bool) :
    (run_app u1 p).2 = (run_app u2 p).2 := by
  cases p <;> rfl

/-- C10: the four command-surface operations duplicated between main.rs
and lib.rs are extensionally equal: the same results and the same
(absence of) effect on the state record. -/
theorem command_surfaces_extensionally_equal (st : AppState) (u : String) (b : Bool) :
    MainBin.get_web_url st = Lib.get_web_url st ∧
    MainBin.set_web_url u st = Lib.set_web_url u st ∧
    MainBin.is_desktop_mode st = Lib.is_desktop_mode st ∧
    MainBin.set_desktop_mode b st = Lib.set_desktop_mode b st :=
  ⟨rfl, rfl, rfl, rfl⟩
